import Mathlib

/-!
Verification of the OHLCV plotting accessor (`vectorbt/ohlcv_accessors.py`,
`OHLCVDFAccessor.plot`) against its design specification.

The embedding below models the table, the column-name mapping, the color schema,
the keyword-argument bags, the figure object and the `plot` method itself, and
proves the specified properties about them.
-/

set_option autoImplicit false

namespace VectorBt

/-- A value inside a keyword-argument bag: a number, a boolean, a string, or a
nested bag of named values (a Python dict). -/
inductive Val where
  | num : Int → Val
  | bool : Bool → Val
  | str : String → Val
  | bag : List (String × Val) → Val

/-- A keyword-argument bag: a Python dict, as an ordered association list with
distinct keys. -/
abbrev Bag := List (String × Val)

/-- Python dict lookup: the value at key `k`, if present (first occurrence wins). -/
def assoc (k : String) : Bag → Option Val
  | [] => none
  | (k', v) :: rest => if k' = k then some v else assoc k rest

theorem sizeOf_lt_of_assoc {k : String} {b : Bag} {v : Val}
    (h : assoc k b = some v) : sizeOf v < sizeOf b := by
  induction b with
  | nil => simp [assoc] at h
  | cons p rest ih =>
    obtain ⟨k', v'⟩ := p
    simp only [assoc] at h
    split at h
    · cases h
      simp only [List.cons.sizeOf_spec, Prod.mk.sizeOf_spec]
      omega
    · have := ih h
      simp only [List.cons.sizeOf_spec, Prod.mk.sizeOf_spec]
      omega

mutual
/-- Modelled from the spec: `merge_dicts` from `vectorbt.utils.config` is not part
of the source slice; §4.6 specifies it as a deterministic recursive merge. Merge of
two values: when both sides are nested bags the bags are merged recursively,
otherwise the override value replaces the base value. -/
def mergeVal : Val → Val → Val
  | Val.bag b, Val.bag o => Val.bag (mergeBag b o)
  | _, v => v
termination_by a b => (sizeOf b, 0, 0)
decreasing_by
  simp only [Val.bag.sizeOf_spec]
  exact Prod.Lex.left _ _ (by omega)

/-- Modelled from the spec (§4.6): the bag-level merge of `merge_dicts`. Every key
of `base` is kept, its value merged with the override value at that key when one
exists; keys present only in `override` are appended in order. -/
def mergeBag (base ov : Bag) : Bag :=
  adjustBag base ov ++ ov.filter (fun q => (assoc q.1 base).isNone)
termination_by (sizeOf ov, 2, 0)
decreasing_by
  exact Prod.Lex.right _ (Prod.Lex.left _ _ (by omega))

/-- The base part of a bag merge: each `(k, v)` of `base` becomes
`(k, mergeVal v w)` when the override holds `w` at `k`, and is kept unchanged
otherwise. -/
def adjustBag : Bag → Bag → Bag
  | [], _ => []
  | (k, v) :: rest, ov =>
    (k, match h : assoc k ov with
        | some w => mergeVal v w
        | none => v) :: adjustBag rest ov
termination_by base ov => (sizeOf ov, 1, sizeOf base)
decreasing_by
  · exact Prod.Lex.left _ _ (sizeOf_lt_of_assoc h)
  · exact Prod.Lex.right _ (Prod.Lex.right _ (by
      simp only [List.cons.sizeOf_spec, Prod.mk.sizeOf_spec]; omega))
end

theorem mergeVal_bag_bag (b o : Bag) :
    mergeVal (Val.bag b) (Val.bag o) = Val.bag (mergeBag b o) := by
  simp [mergeVal]

theorem mergeVal_override (v w : Val) (h : ¬ ∃ b o, v = Val.bag b ∧ w = Val.bag o) :
    mergeVal v w = w := by
  cases v <;> cases w <;> simp [mergeVal]
  exact (h ⟨_, _, rfl, rfl⟩).elim

theorem assoc_append (k : String) (b c : Bag) :
    assoc k (b ++ c) =
      match assoc k b with
      | some v => some v
      | none => assoc k c := by
  induction b with
  | nil => simp [assoc]
  | cons p rest ih =>
    obtain ⟨k', v'⟩ := p
    by_cases hk : k' = k <;> simp [assoc, hk, ih]

theorem assoc_adjustBag (k : String) (base ov : Bag) :
    assoc k (adjustBag base ov) =
      (assoc k base).map (fun v =>
        match assoc k ov with
        | some w => mergeVal v w
        | none => v) := by
  induction base with
  | nil => simp [adjustBag, assoc]
  | cons p rest ih =>
    obtain ⟨k', v'⟩ := p
    by_cases hk : k' = k
    · subst hk
      simp [adjustBag, assoc]
      split <;> rename_i heq <;> simp [heq]
    · simp [adjustBag, assoc, hk, ih]

theorem assoc_filter_of_keep (k : String) (l : Bag) (p : String × Val → Bool)
    (hp : ∀ q : String × Val, q.1 = k → p q = true) :
    assoc k (l.filter p) = assoc k l := by
  induction l with
  | nil => simp
  | cons q rest ih =>
    by_cases hq : p q = true
    · rw [List.filter_cons_of_pos hq]
      obtain ⟨k', v'⟩ := q
      by_cases hk : k' = k <;> simp [assoc, hk, ih]
    · rw [List.filter_cons_of_neg (by simpa using hq)]
      obtain ⟨k', v'⟩ := q
      have hk : k' ≠ k := fun he => hq (hp ⟨k', v'⟩ he)
      simp [assoc, hk, ih]

theorem assoc_mergeBag (k : String) (base ov : Bag) :
    assoc k (mergeBag base ov) =
      match assoc k base, assoc k ov with
      | some v, some w => some (mergeVal v w)
      | some v, none => some v
      | none, w => w := by
  unfold mergeBag
  rw [assoc_append, assoc_adjustBag]
  cases hb : assoc k base with
  | some v => cases ho : assoc k ov <;> simp
  | none =>
    simp only [Option.map_none']
    rw [assoc_filter_of_keep k ov _ (fun q hq => by simp [hq, hb])]

/-- The color schema from the plotting settings
(`plotting_cfg['color_schema']`): the semantic colors used by the trace builders. -/
structure ColorSchema where
  increasing : String
  decreasing : String
  gray : String

/-- The `column_names` mapping: the label expected in the table for each of the five
OHLCV roles. `open_` stands for the `'open'` key (`open` is reserved in Lean). -/
structure ColumnNames where
  open_ : String
  high : String
  low : String
  close : String
  volume : String

/-- The input table `self.obj`: ordered column labels, column-wise numeric cells
(one list per column, in column order), and the shared index
(`self.wrapper.index`, the x-axis values). -/
structure DataFrame where
  index : List Int
  columns : List String
  cells : List (List Int)

/-- Python's `str.lower()`, as the character-wise lowering of the string (the
ASCII range, which covers every label and style name involved). -/
def strLower (s : String) : String := ⟨s.data.map Char.toLower⟩

/-- Line 82: `self.obj.columns.str.lower().tolist()`. -/
def df_column_names (df : DataFrame) : List String :=
  df.columns.map strLower

/-- Python's `list.index(x)`: the position of the first entry equal to `x`, or
`none` when there is no such entry (where `list.index` raises `ValueError`). -/
def listIndex (x : String) : List String → Option Nat
  | [] => none
  | c :: rest => if c = x then some 0 else (listIndex x rest).map (· + 1)

/-- `df_column_names.index(label.lower())` (lines 98–101, 165): the position of the
first column whose lowercased label equals the lowercased `label`. -/
def resolveCol (df : DataFrame) (label : String) : Option Nat :=
  listIndex (strLower label) (df_column_names df)

/-- `self.obj.iloc[:, j]`: the cells of the `j`-th column. -/
def iloc (df : DataFrame) (j : Nat) : List Int :=
  df.cells.getD j []

/-- Lines 92–93: an explicit `display_volume` is kept as given; when it is `None`
the volume panel is displayed iff the lowercased volume label occurs among the
lowercased column labels. -/
def resolvedDisplayVolume (display_volume : Option Bool) (column_names : ColumnNames)
    (df : DataFrame) : Bool :=
  match display_volume with
  | some b => b
  | none => (df_column_names df).contains (strLower column_names.volume)

/-- The `plot_type` argument: either a string or an opaque Plotly trace constructor
(a `tp.BaseTraceType`, identified here by an abstract handle). -/
inductive PlotTypeArg where
  | str : String → PlotTypeArg
  | custom : Nat → PlotTypeArg
  deriving DecidableEq

/-- The trace constructor `plot_obj` chosen at lines 132–142. -/
inductive TraceKind where
  | ohlc
  | candlestick
  | custom : Nat → TraceKind
  deriving DecidableEq

/-- The value bound to the `plot_type` variable after lines 132–142, which the
constructor call at line 149 passes as the trace's `name` keyword: the canonical
string for a built-in style, or the custom constructor itself. -/
inductive NameValue where
  | ofString : String → NameValue
  | ofCustom : Nat → NameValue
  deriving DecidableEq

/-- The two exceptions the render can raise: the `ValueError` of a failed
`list.index` lookup (MissingColumnError) and the `ValueError` of line 140
(InvalidPlotTypeError). -/
inductive PlotError where
  | missingColumn
  | invalidPlotType
  deriving DecidableEq

/-- Lines 130–142: a string `plot_type` is matched case-insensitively against
`'ohlc'` and `'candlestick'`, rebinding `plot_type` to the canonical name and
`plot_obj` to the built-in constructor; any other string raises; a non-string is
used as `plot_obj` unchanged, leaving `plot_type` (hence the later `name` keyword)
bound to the value itself. -/
def resolvePlotType : PlotTypeArg → Except PlotError (TraceKind × NameValue)
  | PlotTypeArg.str s =>
    if strLower s = "ohlc" then
      Except.ok (TraceKind.ohlc, NameValue.ofString "OHLC")
    else if strLower s = "candlestick" then
      Except.ok (TraceKind.candlestick, NameValue.ofString "Candlestick")
    else
      Except.error PlotError.invalidPlotType
  | PlotTypeArg.custom h => Except.ok (TraceKind.custom h, NameValue.ofCustom h)

/-- The price trace built by the constructor call at lines 143–160. `name` is the
`name` keyword argument passed to the constructor (`none` would mean the call left
it unset). -/
structure PriceTrace where
  kind : TraceKind
  x : List Int
  open_ : List Int
  high : List Int
  low : List Int
  close : List Int
  name : Option NameValue
  increasing_line_color : String
  decreasing_line_color : String

/-- Lines 167–170: the per-bar color of one volume bar. The three boolean masks on
`close.values - open.values` assign the increasing color where the difference is
positive, the gray color where it is zero, and the decreasing color where it is
negative. -/
def markerColor (schema : ColorSchema) (c o : Int) : String :=
  if c - o > 0 then schema.increasing
  else if c - o = 0 then schema.gray
  else schema.decreasing

/-- The volume bar trace built by `go.Bar(...)` at lines 171–180. -/
structure VolumeTrace where
  x : List Int
  y : List Int
  marker_color : List String
  marker_line_width : ℚ
  opacity : ℚ
  name : String

/-- Lines 167–180: build the volume bar trace from the index, the resolved volume
series and the resolved close/open series. -/
def buildVolumeTrace (schema : ColorSchema) (index volume close open_ : List Int) :
    VolumeTrace :=
  { x := index
    y := volume
    marker_color := List.zipWith (markerColor schema) close open_
    marker_line_width := 0
    opacity := 1/2
    name := "Volume" }

/-- A trace object held by a figure. -/
inductive BuiltTrace where
  | price : PriceTrace → BuiltTrace
  | volume : VolumeTrace → BuiltTrace

/-- One `fig.add_trace(trace, **add_trace_kwargs)` call, after the caller's
`trace.update(**kwargs)` bag was applied: the built trace object, the update bag
applied to it, and the placement keyword bag of the `add_trace` call. -/
structure AddedTrace where
  trace : BuiltTrace
  traceUpdates : Bag
  addKwargs : Bag

/-- The panel grid of a figure. -/
structure GridSpec where
  rows : Nat
  cols : Nat
  shared_xaxes : Bool
  vertical_spacing : ℚ
  row_heights : List ℚ

/-- A figure: an identity tag (so "returns the same instance" is expressible), its
panel grid, the sequence of `update_layout` bags applied to it in order, and its
attached traces. -/
structure Figure where
  id : Nat
  grid : GridSpec
  layoutUpdates : List Bag
  traces : List AddedTrace

/-- Modelled from the spec: `make_figure` from `vectorbt.utils.figure` is not part
of the source slice; §4.3 specifies that with volume hidden the fresh figure has a
single panel spanning 100% of the height. -/
def makeFigureGrid : GridSpec :=
  { rows := 1, cols := 1, shared_xaxes := false, vertical_spacing := 0,
    row_heights := [1] }

/-- Modelled from the spec: `make_subplots` from `vectorbt.utils.figure` is not
part of the source slice; it allocates a fresh figure with the requested subplot
grid, recorded here verbatim from its keyword arguments (line 106 passes
`rows=2, cols=1, shared_xaxes=True, vertical_spacing=0, row_heights=[0.7, 0.3]`). -/
def make_subplots (rows cols : Nat) (shared_xaxes : Bool) (vertical_spacing : ℚ)
    (row_heights : List ℚ) : GridSpec :=
  { rows := rows, cols := cols, shared_xaxes := shared_xaxes,
    vertical_spacing := vertical_spacing, row_heights := row_heights }

/-- Lines 109–118: the baseline layout bag applied to a freshly created figure. -/
def baselineLayout : Bag :=
  [("showlegend", Val.bool true),
   ("xaxis", Val.bag [("rangeslider_visible", Val.bool false),
                      ("showgrid", Val.bool true)]),
   ("yaxis", Val.bag [("showgrid", Val.bool true)])]

/-- Lines 119–128: the extra layout bag applied to a fresh figure when the volume
panel is shown. -/
def volumePanelLayout : Bag :=
  [("xaxis2", Val.bag [("showgrid", Val.bool true)]),
   ("yaxis2", Val.bag [("showgrid", Val.bool true)]),
   ("bargap", Val.num 0)]

/-- Lines 104–128: the figure freshly created when the caller supplies none — the
panel grid of line 106 or 108, with the baseline layout updates already applied. -/
def freshFigure (dv : Bool) (fresh_id : Nat) : Figure :=
  { id := fresh_id
    grid := if dv then make_subplots 2 1 true 0 [7/10, 3/10] else makeFigureGrid
    layoutUpdates :=
      if dv then [baselineLayout, volumePanelLayout] else [baselineLayout]
    traces := [] }

/-- Lines 104–129: the figure after panel setup — the caller's figure when one is
supplied, a fresh one otherwise — with `fig.update_layout(**layout_kwargs)`
applied in either case. -/
def figAfterLayout (fig : Option Figure) (dv : Bool) (layout_kwargs : Bag)
    (fresh_id : Nat) : Figure :=
  let fig1 :=
    match fig with
    | some f => f
    | none => freshFigure dv fresh_id
  { fig1 with layoutUpdates := fig1.layoutUpdates ++ [layout_kwargs] }

/-- The snapshot of the process-wide settings read at lines 77–79. -/
structure Settings where
  column_names : ColumnNames
  plot_type : PlotTypeArg
  color_schema : ColorSchema

/-- `OHLCVDFAccessor.plot` (lines 44–184), as a function of the settings snapshot,
the accessor state (`self.column_names`, `self.obj`), the call arguments, and a
fresh identity tag for a figure the call may create. A Python exception becomes an
error carrying the figure as mutated up to the raise (`none` when no figure
existed at that point). -/
def plot (settings : Settings) (self_column_names : Option ColumnNames)
    (obj : DataFrame) (plot_type : Option PlotTypeArg) (display_volume : Option Bool)
    (ohlc_kwargs volume_kwargs ohlc_add_trace_kwargs volume_add_trace_kwargs :
      Option Bag)
    (fig : Option Figure) (layout_kwargs : Bag) (fresh_id : Nat) :
    Except (PlotError × Option Figure) Figure :=
  let column_names := self_column_names.getD settings.column_names
  let ohlc_kwargs := ohlc_kwargs.getD []
  let volume_kwargs := volume_kwargs.getD []
  let ohlc_add_trace_kwargs := ohlc_add_trace_kwargs.getD []
  let volume_add_trace_kwargs := volume_add_trace_kwargs.getD []
  let dv := resolvedDisplayVolume display_volume column_names obj
  let ohlc_add_trace_kwargs :=
    if dv then mergeBag [("row", Val.num 1), ("col", Val.num 1)] ohlc_add_trace_kwargs
    else ohlc_add_trace_kwargs
  let volume_add_trace_kwargs :=
    if dv then mergeBag [("row", Val.num 2), ("col", Val.num 1)] volume_add_trace_kwargs
    else volume_add_trace_kwargs
  match resolveCol obj column_names.open_, resolveCol obj column_names.high,
      resolveCol obj column_names.low, resolveCol obj column_names.close with
  | some oi, some hi, some li, some ci =>
    let open_ := iloc obj oi
    let high := iloc obj hi
    let low := iloc obj li
    let close := iloc obj ci
    let fig2 := figAfterLayout fig dv layout_kwargs fresh_id
    match resolvePlotType (plot_type.getD settings.plot_type) with
    | Except.error e => Except.error (e, some fig2)
    | Except.ok (kind, nameVal) =>
      let ohlc : PriceTrace :=
        { kind := kind, x := obj.index, open_ := open_, high := high, low := low,
          close := close, name := some nameVal,
          increasing_line_color := settings.color_schema.increasing,
          decreasing_line_color := settings.color_schema.decreasing }
      let fig3 := { fig2 with
        traces := fig2.traces ++
          [⟨BuiltTrace.price ohlc, ohlc_kwargs, ohlc_add_trace_kwargs⟩] }
      if dv then
        match resolveCol obj column_names.volume with
        | none => Except.error (PlotError.missingColumn, some fig3)
        | some vi =>
          let volume := iloc obj vi
          let vbar := buildVolumeTrace settings.color_schema obj.index volume close open_
          Except.ok { fig3 with
            traces := fig3.traces ++
              [⟨BuiltTrace.volume vbar, volume_kwargs, volume_add_trace_kwargs⟩] }
      else Except.ok fig3
  | _, _, _, _ => Except.error (PlotError.missingColumn, fig)

theorem listIndex_spec {x : String} {l : List String} {i : Nat}
    (h : listIndex x l = some i) :
    l[i]? = some x ∧ ∀ j, j < i → l[j]? ≠ some x := by
  induction l generalizing i with
  | nil => simp [listIndex] at h
  | cons c rest ih =>
    simp only [listIndex] at h
    by_cases hc : c = x
    · rw [if_pos hc] at h
      cases h
      subst hc
      simp
    · rw [if_neg hc] at h
      cases hrest : listIndex x rest with
      | none => rw [hrest] at h; simp at h
      | some i' =>
        rw [hrest] at h
        simp only [Option.map_some', Option.some.injEq] at h
        subst h
        obtain ⟨h1, h2⟩ := ih hrest
        refine ⟨by simpa using h1, ?_⟩
        intro j hj
        cases j with
        | zero => simpa using hc
        | succ j' => simpa using h2 j' (by omega)

theorem listIndex_eq_none {x : String} {l : List String} :
    listIndex x l = none ↔ ∀ c ∈ l, c ≠ x := by
  induction l with
  | nil => simp [listIndex]
  | cons c rest ih =>
    by_cases hc : c = x <;> simp [listIndex, hc, ih]

theorem listIndex_isSome_iff (x : String) (l : List String) :
    (listIndex x l).isSome ↔ x ∈ l := by
  induction l with
  | nil => simp [listIndex]
  | cons c rest ih =>
    by_cases hc : c = x
    · subst hc; simp [listIndex]
    · simp [listIndex, hc, ih, Ne.symm hc]

theorem contains_iff_listIndex (x : String) (l : List String) :
    l.contains x = true ↔ (listIndex x l).isSome := by
  rw [listIndex_isSome_iff]
  simp

section PlotUnfolding

variable {settings : Settings} {scn : Option ColumnNames} {obj : DataFrame}
  {pt : Option PlotTypeArg} {dvo : Option Bool} {okw vkw oatk vatk : Option Bag}
  {fig : Option Figure} {lk : Bag} {fid : Nat}

/-- The price trace the call builds from resolved column positions and a resolved
plot type (lines 143–160). -/
def builtPrice (settings : Settings) (obj : DataFrame) (kind : TraceKind)
    (nm : NameValue) (oi hi li ci : Nat) : PriceTrace :=
  { kind := kind, x := obj.index, open_ := iloc obj oi, high := iloc obj hi,
    low := iloc obj li, close := iloc obj ci, name := some nm,
    increasing_line_color := settings.color_schema.increasing,
    decreasing_line_color := settings.color_schema.decreasing }

theorem plot_ok_hidden {oi hi li ci : Nat} {kind : TraceKind} {nm : NameValue}
    (hoi : resolveCol obj (scn.getD settings.column_names).open_ = some oi)
    (hhi : resolveCol obj (scn.getD settings.column_names).high = some hi)
    (hli : resolveCol obj (scn.getD settings.column_names).low = some li)
    (hci : resolveCol obj (scn.getD settings.column_names).close = some ci)
    (hdv : resolvedDisplayVolume dvo (scn.getD settings.column_names) obj = false)
    (hpt : resolvePlotType (pt.getD settings.plot_type) = Except.ok (kind, nm)) :
    plot settings scn obj pt dvo okw vkw oatk vatk fig lk fid =
      Except.ok
        { figAfterLayout fig false lk fid with
          traces := (figAfterLayout fig false lk fid).traces ++
            [{ trace := BuiltTrace.price (builtPrice settings obj kind nm oi hi li ci),
               traceUpdates := okw.getD [],
               addKwargs := oatk.getD [] }] } := by
  unfold plot
  simp [hoi, hhi, hli, hci, hdv, hpt, builtPrice]

theorem plot_ok_shown {oi hi li ci vi : Nat} {kind : TraceKind} {nm : NameValue}
    (hoi : resolveCol obj (scn.getD settings.column_names).open_ = some oi)
    (hhi : resolveCol obj (scn.getD settings.column_names).high = some hi)
    (hli : resolveCol obj (scn.getD settings.column_names).low = some li)
    (hci : resolveCol obj (scn.getD settings.column_names).close = some ci)
    (hdv : resolvedDisplayVolume dvo (scn.getD settings.column_names) obj = true)
    (hpt : resolvePlotType (pt.getD settings.plot_type) = Except.ok (kind, nm))
    (hvi : resolveCol obj (scn.getD settings.column_names).volume = some vi) :
    plot settings scn obj pt dvo okw vkw oatk vatk fig lk fid =
      Except.ok
        { figAfterLayout fig true lk fid with
          traces := (figAfterLayout fig true lk fid).traces ++
            [{ trace := BuiltTrace.price (builtPrice settings obj kind nm oi hi li ci),
               traceUpdates := okw.getD [],
               addKwargs :=
                 mergeBag [("row", Val.num 1), ("col", Val.num 1)] (oatk.getD []) },
             { trace := BuiltTrace.volume
                 (buildVolumeTrace settings.color_schema obj.index (iloc obj vi)
                   (iloc obj ci) (iloc obj oi)),
               traceUpdates := vkw.getD [],
               addKwargs :=
                 mergeBag [("row", Val.num 2), ("col", Val.num 1)] (vatk.getD []) }] } := by
  unfold plot
  simp [hoi, hhi, hli, hci, hdv, hpt, hvi, builtPrice]

theorem plot_err_missingVolume {oi hi li ci : Nat} {kind : TraceKind} {nm : NameValue}
    (hoi : resolveCol obj (scn.getD settings.column_names).open_ = some oi)
    (hhi : resolveCol obj (scn.getD settings.column_names).high = some hi)
    (hli : resolveCol obj (scn.getD settings.column_names).low = some li)
    (hci : resolveCol obj (scn.getD settings.column_names).close = some ci)
    (hdv : resolvedDisplayVolume dvo (scn.getD settings.column_names) obj = true)
    (hpt : resolvePlotType (pt.getD settings.plot_type) = Except.ok (kind, nm))
    (hvi : resolveCol obj (scn.getD settings.column_names).volume = none) :
    plot settings scn obj pt dvo okw vkw oatk vatk fig lk fid =
      Except.error (PlotError.missingColumn, some
        { figAfterLayout fig true lk fid with
          traces := (figAfterLayout fig true lk fid).traces ++
            [{ trace := BuiltTrace.price (builtPrice settings obj kind nm oi hi li ci),
               traceUpdates := okw.getD [],
               addKwargs :=
                 mergeBag [("row", Val.num 1), ("col", Val.num 1)] (oatk.getD []) }] }) := by
  unfold plot
  simp [hoi, hhi, hli, hci, hdv, hpt, hvi, builtPrice]

theorem plot_err_missingOHLC
    (h : resolveCol obj (scn.getD settings.column_names).open_ = none ∨
         resolveCol obj (scn.getD settings.column_names).high = none ∨
         resolveCol obj (scn.getD settings.column_names).low = none ∨
         resolveCol obj (scn.getD settings.column_names).close = none) :
    plot settings scn obj pt dvo okw vkw oatk vatk fig lk fid =
      Except.error (PlotError.missingColumn, fig) := by
  unfold plot
  rcases h with h | h | h | h
  · simp [h]
  · cases ho : resolveCol obj (scn.getD settings.column_names).open_ <;> simp [ho, h]
  · cases ho : resolveCol obj (scn.getD settings.column_names).open_ <;>
      cases hh : resolveCol obj (scn.getD settings.column_names).high <;>
        simp [ho, hh, h]
  · cases ho : resolveCol obj (scn.getD settings.column_names).open_ <;>
      cases hh : resolveCol obj (scn.getD settings.column_names).high <;>
        cases hl : resolveCol obj (scn.getD settings.column_names).low <;>
          simp [ho, hh, hl, h]

theorem plot_err_plotType {oi hi li ci : Nat} {e : PlotError}
    (hoi : resolveCol obj (scn.getD settings.column_names).open_ = some oi)
    (hhi : resolveCol obj (scn.getD settings.column_names).high = some hi)
    (hli : resolveCol obj (scn.getD settings.column_names).low = some li)
    (hci : resolveCol obj (scn.getD settings.column_names).close = some ci)
    (hpt : resolvePlotType (pt.getD settings.plot_type) = Except.error e) :
    plot settings scn obj pt dvo okw vkw oatk vatk fig lk fid =
      Except.error (e, some (figAfterLayout fig
        (resolvedDisplayVolume dvo (scn.getD settings.column_names) obj) lk fid)) := by
  unfold plot
  simp [hoi, hhi, hli, hci, hpt]

end PlotUnfolding

theorem adjustBag_nil (base : Bag) : adjustBag base [] = base := by
  induction base with
  | nil => rw [adjustBag]
  | cons p rest ih =>
    obtain ⟨k, v⟩ := p
    rw [adjustBag, ih]
    split <;> rename_i heq
    · simp [assoc] at heq
    · rfl

theorem mergeBag_nil_right (base : Bag) : mergeBag base [] = base := by
  unfold mergeBag
  rw [adjustBag_nil]
  simp

theorem mergeVal_num_left (n : Int) (v : Val) : mergeVal (Val.num n) v = v := by
  cases v <;> simp [mergeVal]

theorem assoc_mergeBag_some_override (base ov : Bag) (k : String) (v : Val)
    (hov : assoc k ov = some v)
    (hb : ∀ w, assoc k base = some w → mergeVal w v = v) :
    assoc k (mergeBag base ov) = some v := by
  rw [assoc_mergeBag]
  cases hbase : assoc k base with
  | none => simp [hov]
  | some w => simp [hov, hb w hbase]

theorem assoc_mergeBag_none_override (base ov : Bag) (k : String)
    (hov : assoc k ov = none) :
    assoc k (mergeBag base ov) = assoc k base := by
  rw [assoc_mergeBag]
  cases hbase : assoc k base <;> simp [hov]

theorem assoc_rowcol (r c : Int) (k : String) (w : Val)
    (hw : assoc k [("row", Val.num r), ("col", Val.num c)] = some w) :
    ∀ v : Val, mergeVal w v = v := by
  intro v
  simp only [assoc] at hw
  split at hw
  · cases hw; exact mergeVal_num_left r v
  · split at hw
    · cases hw; exact mergeVal_num_left c v
    · cases hw

theorem getElem?_zipWith {α β γ : Type} (f : α → β → γ) (l : List α) (m : List β)
    (r : Nat) (a : α) (b : β) (ha : l[r]? = some a) (hb : m[r]? = some b) :
    (List.zipWith f l m)[r]? = some (f a b) := by
  rw [List.getElem?_zipWith', ha, hb]
  rfl

/-- Whether a figure holds at least one volume bar trace. -/
def hasVolumeTrace (f : Figure) : Bool :=
  f.traces.any (fun t =>
    match t.trace with
    | BuiltTrace.volume _ => true
    | BuiltTrace.price _ => false)

theorem figAfterLayout_traces (fig : Option Figure) (dv : Bool) (lk : Bag)
    (fid : Nat) :
    (figAfterLayout fig dv lk fid).traces =
      match fig with
      | some f => f.traces
      | none => [] := by
  cases fig <;> simp [figAfterLayout, freshFigure]

theorem figAfterLayout_id (fig : Option Figure) (dv : Bool) (lk : Bag) (fid : Nat) :
    (figAfterLayout fig dv lk fid).id =
      match fig with
      | some f => f.id
      | none => fid := by
  cases fig <;> simp [figAfterLayout, freshFigure]

/-- The color schema of the concrete examples. -/
def exSchema : ColorSchema :=
  { increasing := "green", decreasing := "red", gray := "gray" }

/-- The default OHLCV column-name mapping of the concrete examples. -/
def exCN : ColumnNames :=
  { open_ := "Open", high := "High", low := "Low", close := "Close",
    volume := "Volume" }

/-- The settings snapshot of the concrete examples. -/
def exSettings : Settings :=
  { column_names := exCN, plot_type := PlotTypeArg.str "OHLC",
    color_schema := exSchema }

/-- A 3-row OHLCV table whose rows have close − open equal to +1, 0 and −1. -/
def exDf : DataFrame :=
  { index := [0, 1, 2]
    columns := ["Date", "Open", "High", "Low", "Close", "Volume"]
    cells := [[0, 1, 2], [10, 20, 30], [15, 25, 35], [5, 15, 25], [11, 20, 29],
              [100, 200, 300]] }

/-- The example table without its volume column. -/
def exDfNoVolume : DataFrame :=
  { index := [0, 1, 2]
    columns := ["Date", "Open", "High", "Low", "Close"]
    cells := [[0, 1, 2], [10, 20, 30], [15, 25, 35], [5, 15, 25], [11, 20, 29]] }

/-- The example table without its close column. -/
def exDfNoClose : DataFrame :=
  { index := [0, 1, 2]
    columns := ["Date", "Open", "High", "Low", "Volume"]
    cells := [[0, 1, 2], [10, 20, 30], [15, 25, 35], [5, 15, 25], [100, 200, 300]] }

/-- A table with two case-insensitive matches for the open label. -/
def exDfDup : DataFrame :=
  { index := [0]
    columns := ["Open", "OPEN", "High", "Low", "Close"]
    cells := [[1], [2], [3], [0], [2]] }

theorem getLast?_append_pair {α : Type} (l : List α) (a b : α) :
    (l ++ [a, b]).getLast? = some b := by
  rw [show l ++ [a, b] = (l ++ [a]) ++ [b] by simp]
  exact List.getLast?_concat _

theorem exDf_open :
    resolveCol exDf ((some exCN).getD exSettings.column_names).open_ = some 1 := rfl

theorem exDf_high :
    resolveCol exDf ((some exCN).getD exSettings.column_names).high = some 2 := rfl

theorem exDf_low :
    resolveCol exDf ((some exCN).getD exSettings.column_names).low = some 3 := rfl

theorem exDf_close :
    resolveCol exDf ((some exCN).getD exSettings.column_names).close = some 4 := rfl

theorem exDf_volume :
    resolveCol exDf ((some exCN).getD exSettings.column_names).volume = some 5 := rfl

theorem exDf_dv :
    resolvedDisplayVolume none ((some exCN).getD exSettings.column_names) exDf =
      true := rfl

theorem exDf_pt :
    resolvePlotType ((none : Option PlotTypeArg).getD exSettings.plot_type) =
      Except.ok (TraceKind.ohlc, NameValue.ofString "OHLC") := rfl

/-- The figure produced by a default render of the volume-less example table. -/
def exFigHidden : Figure :=
  { id := 0
    grid := makeFigureGrid
    layoutUpdates := [baselineLayout, []]
    traces := [{ trace := BuiltTrace.price
                   (builtPrice exSettings exDfNoVolume TraceKind.ohlc
                     (NameValue.ofString "OHLC") 1 2 3 4)
                 traceUpdates := []
                 addKwargs := [] }] }

theorem plot_exDfNoVolume :
    plot exSettings (some exCN) exDfNoVolume none none none none none none none
      [] 0 = Except.ok exFigHidden := rfl

/-- The figure produced by a default render of the full example table. -/
def exFigShown : Figure :=
  { id := 0
    grid := make_subplots 2 1 true 0 [7/10, 3/10]
    layoutUpdates := [baselineLayout, volumePanelLayout, []]
    traces := [{ trace := BuiltTrace.price
                   (builtPrice exSettings exDf TraceKind.ohlc
                     (NameValue.ofString "OHLC") 1 2 3 4)
                 traceUpdates := []
                 addKwargs := [("row", Val.num 1), ("col", Val.num 1)] },
               { trace := BuiltTrace.volume
                   (buildVolumeTrace exSchema exDf.index (iloc exDf 5)
                     (iloc exDf 4) (iloc exDf 1))
                 traceUpdates := []
                 addKwargs := [("row", Val.num 2), ("col", Val.num 1)] }] }

theorem plot_exDf :
    plot exSettings (some exCN) exDf none none none none none none none [] 0 =
      Except.ok exFigShown := by
  refine (plot_ok_shown exDf_open exDf_high exDf_low exDf_close exDf_dv exDf_pt
    exDf_volume).trans ?_
  simp only [Option.getD_none, mergeBag_nil_right]
  rfl

/-- The base bag of the specification's merge example. -/
def exBase : Bag := [("a", Val.num 1), ("b", Val.bag [("c", Val.num 2)])]

/-- The override bag of the specification's merge example. -/
def exOv : Bag := [("b", Val.bag [("d", Val.num 3)])]

/-- C9: `merge_dicts` semantics — for every key, the merge result holds the
recursive merge when both sides hold nested bags at that key and the override
value otherwise, and keys present only in the base keep their base value (the
merge builds a new bag and never mutates its arguments, which the pure embedding
makes structural). -/
theorem C9_merge_dicts_semantics (base ov : Bag) (k : String) :
    (assoc k (mergeBag base ov) =
      match assoc k base, assoc k ov with
      | some v, some w => some (mergeVal v w)
      | some v, none => some v
      | none, w => w)
    ∧ (∀ b o : Bag, mergeVal (Val.bag b) (Val.bag o) = Val.bag (mergeBag b o))
    ∧ (∀ v w : Val, (¬ ∃ b o, v = Val.bag b ∧ w = Val.bag o) → mergeVal v w = w) :=
  ⟨assoc_mergeBag k base ov, mergeVal_bag_bag, mergeVal_override⟩

/-- C9 witness: the specification's example — merging `{a:1, b:{c:2}}` with
`{b:{d:3}}` yields `{c:2, d:3}` under `b` and keeps `a` at `1`. -/
theorem C9_merge_dicts_semantics_witness :
    assoc "b" (mergeBag exBase exOv) =
      some (Val.bag (mergeBag [("c", Val.num 2)] [("d", Val.num 3)])) ∧
    mergeBag [("c", Val.num 2)] [("d", Val.num 3)] =
      [("c", Val.num 2), ("d", Val.num 3)] ∧
    assoc "a" (mergeBag exBase exOv) = some (Val.num 1) := by
  have h1 := (C9_merge_dicts_semantics exBase exOv "b").1
  have h2 := (C9_merge_dicts_semantics exBase exOv "a").1
  have hb : assoc "b" exBase = some (Val.bag [("c", Val.num 2)]) := rfl
  have hbo : assoc "b" exOv = some (Val.bag [("d", Val.num 3)]) := rfl
  have ha : assoc "a" exBase = some (Val.num 1) := rfl
  have hao : assoc "a" exOv = none := rfl
  refine ⟨?_, ?_, ?_⟩
  · rw [h1, hb, hbo]
    show some (mergeVal (Val.bag [("c", Val.num 2)]) (Val.bag [("d", Val.num 3)])) = _
    rw [mergeVal_bag_bag]
  · have hcd : assoc "c" [("d", Val.num 3)] = none := rfl
    rw [mergeBag, adjustBag, hcd, adjustBag]
    rfl
  · rw [h2, ha, hao]

/-- C1: column resolution is case-insensitive and total on success — a resolved
index is the position of a column whose lowercased label equals the lowercased
role label; labels with equal lowercasing resolve to the same index; if any of
the four required roles fails to resolve, the render raises MissingColumnError
(with the figure untouched); and when the four required roles resolve, the plot
type is valid and `display_volume` is unset, absence of the volume label alone
never raises. -/
theorem C1_column_resolution (settings : Settings) (obj : DataFrame)
    (cn : ColumnNames) (pt : Option PlotTypeArg) (okw vkw oatk vatk : Option Bag)
    (fig : Option Figure) (lk : Bag) (fid : Nat) :
    (∀ label i, resolveCol obj label = some i →
        obj.columns[i]?.map strLower = some (strLower label))
    ∧ (∀ label label', strLower label = strLower label' →
        resolveCol obj label = resolveCol obj label')
    ∧ (∀ dvo, (resolveCol obj cn.open_ = none ∨ resolveCol obj cn.high = none ∨
          resolveCol obj cn.low = none ∨ resolveCol obj cn.close = none) →
        plot settings (some cn) obj pt dvo okw vkw oatk vatk fig lk fid =
          Except.error (PlotError.missingColumn, fig))
    ∧ (∀ oi hi li ci kind nm,
        resolveCol obj cn.open_ = some oi → resolveCol obj cn.high = some hi →
        resolveCol obj cn.low = some li → resolveCol obj cn.close = some ci →
        resolvePlotType (pt.getD settings.plot_type) = Except.ok (kind, nm) →
        resolveCol obj cn.volume = none →
        ∃ f, plot settings (some cn) obj pt none okw vkw oatk vatk fig lk fid =
          Except.ok f) := by
  refine ⟨?_, ?_, ?_, ?_⟩
  · intro label i h
    unfold resolveCol at h
    obtain ⟨h1, -⟩ := listIndex_spec h
    unfold df_column_names at h1
    rwa [List.getElem?_map] at h1
  · intro label label' he
    unfold resolveCol
    rw [he]
  · intro dvo h
    exact plot_err_missingOHLC h
  · intro oi hi li ci kind nm hoi hhi hli hci hpt hvol
    have hdv : resolvedDisplayVolume none cn obj = false := by
      show (df_column_names obj).contains (strLower cn.volume) = false
      cases hc : (df_column_names obj).contains (strLower cn.volume) with
      | false => rfl
      | true =>
        exfalso
        have hs := (contains_iff_listIndex _ _).mp hc
        unfold resolveCol at hvol
        rw [hvol] at hs
        simp at hs
    exact ⟨_, plot_ok_hidden hoi hhi hli hci hdv hpt⟩

/-- C1 witness: rendering the example table that lacks a close column raises
MissingColumnError. -/
theorem C1_column_resolution_witness :
    plot exSettings (some exCN) exDfNoClose none none none none none none none []
      0 = Except.error (PlotError.missingColumn, none) :=
  (C1_column_resolution exSettings exDfNoClose exCN none none none none none none
    [] 0).2.2.1 none (Or.inr (Or.inr (Or.inr rfl)))

/-- C10: when several columns match a role label case-insensitively, the resolver
deterministically picks the first matching column in column order — the resolved
index holds a matching label and every smaller index does not (for any role
label, volume included). -/
theorem C10_first_match (df : DataFrame) (label : String) (i : Nat)
    (h : resolveCol df label = some i) :
    df.columns[i]?.map strLower = some (strLower label) ∧
    ∀ j, j < i → df.columns[j]?.map strLower ≠ some (strLower label) := by
  unfold resolveCol at h
  obtain ⟨h1, h2⟩ := listIndex_spec h
  constructor
  · unfold df_column_names at h1
    rwa [List.getElem?_map] at h1
  · intro j hj
    have h3 := h2 j hj
    unfold df_column_names at h3
    rwa [List.getElem?_map] at h3

/-- C10 witness: with both "Open" and "OPEN" present, any casing of the open label
resolves to index 0, the first match in column order. -/
theorem C10_first_match_witness :
    resolveCol exDfDup "oPeN" = some 0 ∧
    exDfDup.columns[0]?.map strLower = some (strLower "oPeN") := by
  have h : resolveCol exDfDup "oPeN" = some 0 := rfl
  exact ⟨h, (C10_first_match exDfDup "oPeN" 0 h).1⟩

/-- C2: an explicit `display_volume` boolean is honored unconditionally; an unset
one shows the volume panel iff some column label matches the volume label
case-insensitively — observable on the rendered figure: starting from no figure,
a successful render holds a volume trace exactly when the resolved visibility is
true. -/
theorem C2_volume_visibility (cn : ColumnNames) (df : DataFrame) :
    (∀ b, resolvedDisplayVolume (some b) cn df = b)
    ∧ (resolvedDisplayVolume none cn df = true ↔
        ∃ c ∈ df.columns, strLower c = strLower cn.volume)
    ∧ (∀ settings pt dvo okw vkw oatk vatk lk fid f',
        plot settings (some cn) df pt dvo okw vkw oatk vatk none lk fid =
          Except.ok f' →
        hasVolumeTrace f' = resolvedDisplayVolume dvo cn df) := by
  refine ⟨fun b => rfl, ?_, ?_⟩
  · show (df_column_names df).contains (strLower cn.volume) = true ↔ _
    rw [contains_iff_listIndex, listIndex_isSome_iff]
    unfold df_column_names
    exact List.mem_map
  · intro settings pt dvo okw vkw oatk vatk lk fid f' hok
    show hasVolumeTrace f' =
      resolvedDisplayVolume dvo ((some cn).getD settings.column_names) df
    cases hoi : resolveCol df ((some cn).getD settings.column_names).open_ with
    | none => rw [plot_err_missingOHLC (Or.inl hoi)] at hok; cases hok
    | some oi =>
    cases hhi : resolveCol df ((some cn).getD settings.column_names).high with
    | none => rw [plot_err_missingOHLC (Or.inr (Or.inl hhi))] at hok; cases hok
    | some hi =>
    cases hli : resolveCol df ((some cn).getD settings.column_names).low with
    | none =>
      rw [plot_err_missingOHLC (Or.inr (Or.inr (Or.inl hli)))] at hok; cases hok
    | some li =>
    cases hci : resolveCol df ((some cn).getD settings.column_names).close with
    | none =>
      rw [plot_err_missingOHLC (Or.inr (Or.inr (Or.inr hci)))] at hok; cases hok
    | some ci =>
    cases hpt : resolvePlotType (pt.getD settings.plot_type) with
    | error e => rw [plot_err_plotType hoi hhi hli hci hpt] at hok; cases hok
    | ok kn =>
    obtain ⟨kind, nm⟩ := kn
    cases hdv : resolvedDisplayVolume dvo ((some cn).getD settings.column_names) df
      with
    | false =>
      rw [plot_ok_hidden hoi hhi hli hci hdv hpt] at hok
      injection hok with h
      subst h
      simp [hasVolumeTrace, figAfterLayout_traces]
    | true =>
      cases hvi : resolveCol df ((some cn).getD settings.column_names).volume with
      | none =>
        rw [plot_err_missingVolume hoi hhi hli hci hdv hpt hvi] at hok; cases hok
      | some vi =>
        rw [plot_ok_shown hoi hhi hli hci hdv hpt hvi] at hok
        injection hok with h
        subst h
        simp [hasVolumeTrace, figAfterLayout_traces]

/-- C2 witness: an explicit `False` hides the panel on the full example table; an
unset flag shows it there (a volume trace is present in the rendered figure). -/
theorem C2_volume_visibility_witness :
    resolvedDisplayVolume (some false) exCN exDf = false ∧
    resolvedDisplayVolume none exCN exDf = true ∧
    hasVolumeTrace exFigShown = true := by
  obtain ⟨h1, h2, h3⟩ := C2_volume_visibility exCN exDf
  refine ⟨h1 false, h2.mpr ⟨"Volume", by simp [exDf], rfl⟩, ?_⟩
  have hv := h3 exSettings none none none none none none [] 0 exFigShown plot_exDf
  rw [hv]
  rfl

/-- C3: the volume bar trace of a successful render colors every bar by
delta = close − open — the schema's increasing color when positive, gray when
zero, decreasing when negative, for any color schema — and carries display name
"Volume", zero marker border width and opacity 0.5. -/
theorem C3_volume_bar_coloring {settings : Settings} {cn : ColumnNames}
    {df : DataFrame} {pt : Option PlotTypeArg} {dvo : Option Bool}
    {okw vkw oatk vatk : Option Bag} {fig : Option Figure} {lk : Bag} {fid : Nat}
    {f' : Figure} {oi hi li ci vi : Nat} {t : AddedTrace} {vt : VolumeTrace}
    (hoi : resolveCol df ((some cn).getD settings.column_names).open_ = some oi)
    (hhi : resolveCol df ((some cn).getD settings.column_names).high = some hi)
    (hli : resolveCol df ((some cn).getD settings.column_names).low = some li)
    (hci : resolveCol df ((some cn).getD settings.column_names).close = some ci)
    (hvi : resolveCol df ((some cn).getD settings.column_names).volume = some vi)
    (hdv : resolvedDisplayVolume dvo ((some cn).getD settings.column_names) df =
      true)
    (hok : plot settings (some cn) df pt dvo okw vkw oatk vatk fig lk fid =
      Except.ok f')
    (hlast : f'.traces.getLast? = some t)
    (hvt : t.trace = BuiltTrace.volume vt) :
    vt.name = "Volume" ∧ vt.marker_line_width = 0 ∧ vt.opacity = 1/2 ∧
    vt.x = df.index ∧ vt.y = iloc df vi ∧
    ∀ (r : Nat) (c o : Int), (iloc df ci)[r]? = some c → (iloc df oi)[r]? = some o →
      vt.marker_color[r]? = some
        (if c - o > 0 then settings.color_schema.increasing
         else if c - o = 0 then settings.color_schema.gray
         else settings.color_schema.decreasing) := by
  cases hpt : resolvePlotType (pt.getD settings.plot_type) with
  | error e => rw [plot_err_plotType hoi hhi hli hci hpt] at hok; cases hok
  | ok kn =>
  obtain ⟨kind, nm⟩ := kn
  rw [plot_ok_shown hoi hhi hli hci hdv hpt hvi] at hok
  injection hok with h
  subst h
  dsimp only at hlast
  rw [getLast?_append_pair] at hlast
  injection hlast with h2
  subst h2
  dsimp only at hvt
  injection hvt with h3
  subst h3
  refine ⟨rfl, rfl, rfl, rfl, rfl, ?_⟩
  intro r c o hc ho
  have hz := getElem?_zipWith (markerColor settings.color_schema) (iloc df ci)
    (iloc df oi) r c o hc ho
  dsimp only [buildVolumeTrace]
  rw [hz]
  rfl

/-- C3 witness: on the example table with per-row close − open equal to +1, 0 and
−1, the rendered volume trace is named "Volume" and its three marker colors are
the increasing, gray and decreasing colors respectively. -/
theorem C3_volume_bar_coloring_witness :
    (buildVolumeTrace exSchema exDf.index (iloc exDf 5) (iloc exDf 4)
      (iloc exDf 1)).name = "Volume" ∧
    (buildVolumeTrace exSchema exDf.index (iloc exDf 5) (iloc exDf 4)
      (iloc exDf 1)).marker_color[0]? = some "green" ∧
    (buildVolumeTrace exSchema exDf.index (iloc exDf 5) (iloc exDf 4)
      (iloc exDf 1)).marker_color[1]? = some "gray" ∧
    (buildVolumeTrace exSchema exDf.index (iloc exDf 5) (iloc exDf 4)
      (iloc exDf 1)).marker_color[2]? = some "red" := by
  obtain ⟨hn, hw, hop, hx, hy, hcol⟩ :=
    C3_volume_bar_coloring exDf_open exDf_high exDf_low exDf_close exDf_volume
      exDf_dv plot_exDf rfl rfl
  refine ⟨hn, ?_, ?_, ?_⟩
  · have h := hcol 0 11 10 rfl rfl
    rw [if_pos (by decide)] at h
    exact h
  · have h := hcol 1 20 20 rfl rfl
    rw [if_neg (by decide), if_pos (by decide)] at h
    exact h
  · have h := hcol 2 29 30 rfl rfl
    rw [if_neg (by decide), if_neg (by decide)] at h
    exact h

/-- C4: a string plot type is matched case-insensitively against "ohlc" and
"candlestick", yielding the built-in trace kind with canonical display name
"OHLC" or "Candlestick"; any other string raises InvalidPlotTypeError before any
trace has been built or attached — the error figure's traces are exactly the
input figure's. -/
theorem C4_plot_type_matching :
    (∀ s, strLower s = "ohlc" → resolvePlotType (PlotTypeArg.str s) =
        Except.ok (TraceKind.ohlc, NameValue.ofString "OHLC"))
    ∧ (∀ s, strLower s = "candlestick" → resolvePlotType (PlotTypeArg.str s) =
        Except.ok (TraceKind.candlestick, NameValue.ofString "Candlestick"))
    ∧ (∀ s, strLower s ≠ "ohlc" → strLower s ≠ "candlestick" →
        resolvePlotType (PlotTypeArg.str s) =
          Except.error PlotError.invalidPlotType)
    ∧ (∀ settings cn df s dvo okw vkw oatk vatk fig lk fid oi hi li ci,
        resolveCol df cn.open_ = some oi → resolveCol df cn.high = some hi →
        resolveCol df cn.low = some li → resolveCol df cn.close = some ci →
        strLower s ≠ "ohlc" → strLower s ≠ "candlestick" →
        ∃ fx, plot settings (some cn) df (some (PlotTypeArg.str s)) dvo okw vkw
            oatk vatk fig lk fid =
            Except.error (PlotError.invalidPlotType, some fx) ∧
          fx.traces = (match fig with | some f => f.traces | none => [])) := by
  refine ⟨?_, ?_, ?_, ?_⟩
  · intro s hs
    simp only [resolvePlotType]
    rw [if_pos hs]
  · intro s hs
    have hne : ¬ strLower s = "ohlc" := fun h => absurd (hs.symm.trans h) (by decide)
    simp only [resolvePlotType]
    rw [if_neg hne, if_pos hs]
  · intro s h1 h2
    simp only [resolvePlotType]
    rw [if_neg h1, if_neg h2]
  · intro settings cn df s dvo okw vkw oatk vatk fig lk fid oi hi li ci hoi hhi
      hli hci h1 h2
    have hpt : resolvePlotType ((some (PlotTypeArg.str s)).getD
        settings.plot_type) = Except.error PlotError.invalidPlotType := by
      show resolvePlotType (PlotTypeArg.str s) = _
      simp only [resolvePlotType]
      rw [if_neg h1, if_neg h2]
    exact ⟨_, plot_err_plotType hoi hhi hli hci hpt,
      figAfterLayout_traces fig _ lk fid⟩

/-- C4 witness: the unrecognized style "line" raises InvalidPlotTypeError, and
"Candlestick" (any casing) resolves to the candlestick kind with its canonical
name. -/
theorem C4_plot_type_matching_witness :
    resolvePlotType (PlotTypeArg.str "line") =
      Except.error PlotError.invalidPlotType ∧
    resolvePlotType (PlotTypeArg.str "CandleStick") =
      Except.ok (TraceKind.candlestick, NameValue.ofString "Candlestick") := by
  obtain ⟨-, hB, hC, -⟩ := C4_plot_type_matching
  exact ⟨hC "line" (by decide) (by decide), hB "CandleStick" (by decide)⟩

/-- C5 counterexample: rendering the volume-less example table with the custom
(non-string) plot type `custom 0` yields a price trace whose `name` keyword is
set — to the plot-type value itself — so the claim that the render does not
itself set a name for a custom constructor is false. -/
theorem C5_custom_name_counterexample :
    (plot exSettings (some exCN) exDfNoVolume (some (PlotTypeArg.custom 0)) none
        none none none none none [] 0).map
      (fun f => f.traces.map (fun t =>
        match t.trace with
        | BuiltTrace.price p => p.name
        | BuiltTrace.volume _ => none)) =
      Except.ok [some (NameValue.ofCustom 0)] ∧
    some (NameValue.ofCustom 0) ≠ (none : Option NameValue) :=
  ⟨rfl, by decide⟩

/-- C5 amended: a non-string plot type value is used as-is as the trace
constructor, but the render passes the plot-type value itself as the trace's
`name` keyword argument instead of leaving the name to the constructor's own
defaulting. -/
theorem C5_custom_plot_type (h : Nat) :
    resolvePlotType (PlotTypeArg.custom h) =
      Except.ok (TraceKind.custom h, NameValue.ofCustom h)
    ∧ (∀ settings cn df dvo okw vkw oatk vatk lk fid oi hi li ci f',
        resolveCol df cn.open_ = some oi → resolveCol df cn.high = some hi →
        resolveCol df cn.low = some li → resolveCol df cn.close = some ci →
        plot settings (some cn) df (some (PlotTypeArg.custom h)) dvo okw vkw oatk
          vatk none lk fid = Except.ok f' →
        (builtPrice settings df (TraceKind.custom h) (NameValue.ofCustom h)
            oi hi li ci).name = some (NameValue.ofCustom h) ∧
        ∃ a ∈ f'.traces, a.trace = BuiltTrace.price
          (builtPrice settings df (TraceKind.custom h) (NameValue.ofCustom h)
            oi hi li ci)) := by
  refine ⟨rfl, ?_⟩
  intro settings cn df dvo okw vkw oatk vatk lk fid oi hi li ci f' hoi hhi hli
    hci hok
  have hpt : resolvePlotType ((some (PlotTypeArg.custom h)).getD
      settings.plot_type) =
      Except.ok (TraceKind.custom h, NameValue.ofCustom h) := rfl
  refine ⟨rfl, ?_⟩
  cases hdv : resolvedDisplayVolume dvo ((some cn).getD settings.column_names) df
    with
  | false =>
    rw [plot_ok_hidden hoi hhi hli hci hdv hpt] at hok
    injection hok with he
    subst he
    refine ⟨{ trace := BuiltTrace.price (builtPrice settings df
                (TraceKind.custom h) (NameValue.ofCustom h) oi hi li ci)
              traceUpdates := okw.getD []
              addKwargs := oatk.getD [] }, ?_, rfl⟩
    exact List.mem_append_right _ (by simp)
  | true =>
    cases hvi : resolveCol df ((some cn).getD settings.column_names).volume with
    | none =>
      rw [plot_err_missingVolume hoi hhi hli hci hdv hpt hvi] at hok
      cases hok
    | some vi =>
      rw [plot_ok_shown hoi hhi hli hci hdv hpt hvi] at hok
      injection hok with he
      subst he
      refine ⟨{ trace := BuiltTrace.price (builtPrice settings df
                  (TraceKind.custom h) (NameValue.ofCustom h) oi hi li ci)
                traceUpdates := okw.getD []
                addKwargs := mergeBag [("row", Val.num 1), ("col", Val.num 1)]
                  (oatk.getD []) }, ?_, rfl⟩
      exact List.mem_append_right _ (by simp)

/-- C5 amended witness: concretely, on the volume-less example table with custom
plot type `custom 0`, the rendered price trace is built from the custom
constructor and carries it as its `name` argument. -/
theorem C5_custom_plot_type_witness :
    (builtPrice exSettings exDfNoVolume (TraceKind.custom 0)
      (NameValue.ofCustom 0) 1 2 3 4).name = some (NameValue.ofCustom 0) := by
  have hx := (C5_custom_plot_type 0).2 exSettings exCN exDfNoVolume none none
    none none none [] 0 1 2 3 4 _ rfl rfl rfl rfl rfl
  exact hx.1

/-- C6: a render that creates its own figure allocates a single panel spanning
the full height when volume is hidden, and two vertically stacked panels sharing
the x-axis with height ratio 0.7:0.3 and zero vertical gap when volume is
shown. -/
theorem C6_fresh_figure_panels {settings : Settings} {scn : Option ColumnNames}
    {df : DataFrame} {pt : Option PlotTypeArg} {dvo : Option Bool}
    {okw vkw oatk vatk : Option Bag} {lk : Bag} {fid : Nat} {f' : Figure}
    (hok : plot settings scn df pt dvo okw vkw oatk vatk none lk fid =
      Except.ok f') :
    (resolvedDisplayVolume dvo (scn.getD settings.column_names) df = false →
      f'.grid = makeFigureGrid ∧ f'.grid.rows = 1 ∧ f'.grid.row_heights = [1]) ∧
    (resolvedDisplayVolume dvo (scn.getD settings.column_names) df = true →
      f'.grid = make_subplots 2 1 true 0 [7/10, 3/10] ∧ f'.grid.rows = 2 ∧
      f'.grid.cols = 1 ∧ f'.grid.shared_xaxes = true ∧
      f'.grid.vertical_spacing = 0 ∧ f'.grid.row_heights = [7/10, 3/10]) := by
  have hgrid : f'.grid = (freshFigure
      (resolvedDisplayVolume dvo (scn.getD settings.column_names) df) fid).grid := by
    cases hoi : resolveCol df (scn.getD settings.column_names).open_ with
    | none => rw [plot_err_missingOHLC (Or.inl hoi)] at hok; cases hok
    | some oi =>
    cases hhi : resolveCol df (scn.getD settings.column_names).high with
    | none => rw [plot_err_missingOHLC (Or.inr (Or.inl hhi))] at hok; cases hok
    | some hi =>
    cases hli : resolveCol df (scn.getD settings.column_names).low with
    | none =>
      rw [plot_err_missingOHLC (Or.inr (Or.inr (Or.inl hli)))] at hok; cases hok
    | some li =>
    cases hci : resolveCol df (scn.getD settings.column_names).close with
    | none =>
      rw [plot_err_missingOHLC (Or.inr (Or.inr (Or.inr hci)))] at hok; cases hok
    | some ci =>
    cases hpt : resolvePlotType (pt.getD settings.plot_type) with
    | error e => rw [plot_err_plotType hoi hhi hli hci hpt] at hok; cases hok
    | ok kn =>
    obtain ⟨kind, nm⟩ := kn
    cases hdv : resolvedDisplayVolume dvo (scn.getD settings.column_names) df with
    | false =>
      rw [plot_ok_hidden hoi hhi hli hci hdv hpt] at hok
      injection hok with he
      subst he
      rfl
    | true =>
      cases hvi : resolveCol df (scn.getD settings.column_names).volume with
      | none =>
        rw [plot_err_missingVolume hoi hhi hli hci hdv hpt hvi] at hok; cases hok
      | some vi =>
        rw [plot_ok_shown hoi hhi hli hci hdv hpt hvi] at hok
        injection hok with he
        subst he
        rfl
  constructor
  · intro hdv
    rw [hgrid, hdv]
    exact ⟨rfl, rfl, rfl⟩
  · intro hdv
    rw [hgrid, hdv]
    exact ⟨rfl, rfl, rfl, rfl, rfl, rfl⟩

/-- C6 witness: the default render of the full example table has two panels with
heights 0.7 and 0.3; the default render of the volume-less one has one panel. -/
theorem C6_fresh_figure_panels_witness :
    exFigShown.grid.rows = 2 ∧ exFigShown.grid.shared_xaxes = true ∧
    exFigShown.grid.row_heights = [7/10, 3/10] ∧
    exFigShown.grid.vertical_spacing = 0 ∧ exFigHidden.grid.rows = 1 ∧
    exFigHidden.grid.row_heights = [1] := by
  have hs := (C6_fresh_figure_panels plot_exDf).2 rfl
  have hh := (C6_fresh_figure_panels plot_exDfNoVolume).1 rfl
  exact ⟨hs.2.1, hs.2.2.2.1, hs.2.2.2.2.2, hs.2.2.2.2.1, hh.2.1, hh.2.2⟩

/-- C7: the baseline layout (legend, grid lines, no range slider, and — with a
volume panel — second-axis grid lines and zero bar gap) is applied only to a
freshly created figure, never to a caller-supplied one; the caller's layout
overrides are applied last in either case; and the returned figure is the very
instance supplied (same identity, grid, and prior layout updates), or the newly
created one. -/
theorem C7_layout_updates {settings : Settings} {scn : Option ColumnNames}
    {df : DataFrame} {pt : Option PlotTypeArg} {dvo : Option Bool}
    {okw vkw oatk vatk : Option Bag} {fig : Option Figure} {lk : Bag} {fid : Nat}
    {f' : Figure}
    (hok : plot settings scn df pt dvo okw vkw oatk vatk fig lk fid =
      Except.ok f') :
    (∀ f0, fig = some f0 →
      f'.id = f0.id ∧ f'.grid = f0.grid ∧
      f'.layoutUpdates = f0.layoutUpdates ++ [lk]) ∧
    (fig = none →
      f'.id = fid ∧
      f'.layoutUpdates =
        (if resolvedDisplayVolume dvo (scn.getD settings.column_names) df then
          [baselineLayout, volumePanelLayout] else [baselineLayout]) ++ [lk]) := by
  have key : f'.id = (figAfterLayout fig
        (resolvedDisplayVolume dvo (scn.getD settings.column_names) df) lk fid).id ∧
      f'.grid = (figAfterLayout fig
        (resolvedDisplayVolume dvo (scn.getD settings.column_names) df) lk fid).grid ∧
      f'.layoutUpdates = (figAfterLayout fig
        (resolvedDisplayVolume dvo (scn.getD settings.column_names) df) lk
        fid).layoutUpdates := by
    cases hoi : resolveCol df (scn.getD settings.column_names).open_ with
    | none => rw [plot_err_missingOHLC (Or.inl hoi)] at hok; cases hok
    | some oi =>
    cases hhi : resolveCol df (scn.getD settings.column_names).high with
    | none => rw [plot_err_missingOHLC (Or.inr (Or.inl hhi))] at hok; cases hok
    | some hi =>
    cases hli : resolveCol df (scn.getD settings.column_names).low with
    | none =>
      rw [plot_err_missingOHLC (Or.inr (Or.inr (Or.inl hli)))] at hok; cases hok
    | some li =>
    cases hci : resolveCol df (scn.getD settings.column_names).close with
    | none =>
      rw [plot_err_missingOHLC (Or.inr (Or.inr (Or.inr hci)))] at hok; cases hok
    | some ci =>
    cases hpt : resolvePlotType (pt.getD settings.plot_type) with
    | error e => rw [plot_err_plotType hoi hhi hli hci hpt] at hok; cases hok
    | ok kn =>
    obtain ⟨kind, nm⟩ := kn
    cases hdv : resolvedDisplayVolume dvo (scn.getD settings.column_names) df with
    | false =>
      rw [plot_ok_hidden hoi hhi hli hci hdv hpt] at hok
      injection hok with he
      subst he
      exact ⟨rfl, rfl, rfl⟩
    | true =>
      cases hvi : resolveCol df (scn.getD settings.column_names).volume with
      | none =>
        rw [plot_err_missingVolume hoi hhi hli hci hdv hpt hvi] at hok; cases hok
      | some vi =>
        rw [plot_ok_shown hoi hhi hli hci hdv hpt hvi] at hok
        injection hok with he
        subst he
        exact ⟨rfl, rfl, rfl⟩
  constructor
  · intro f0 hfig
    subst hfig
    refine ⟨key.1.trans ?_, key.2.1.trans ?_, key.2.2.trans ?_⟩ <;>
      simp [figAfterLayout]
  · intro hfig
    subst hfig
    refine ⟨key.1.trans ?_, key.2.2.trans ?_⟩ <;>
      simp [figAfterLayout, freshFigure]

/-- A caller-supplied figure, with its own identity, one prior layout update and
no traces. -/
def exUserFig : Figure :=
  { id := 7, grid := makeFigureGrid, layoutUpdates := [[("foo", Val.num 42)]],
    traces := [] }

/-- The result of rendering the volume-less example table into `exUserFig` with
the layout override `{title: "t"}`. -/
def exUserResult : Figure :=
  { id := 7, grid := makeFigureGrid,
    layoutUpdates := [[("foo", Val.num 42)], [("title", Val.str "t")]],
    traces := [{ trace := BuiltTrace.price (builtPrice exSettings exDfNoVolume
                   TraceKind.ohlc (NameValue.ofString "OHLC") 1 2 3 4)
                 traceUpdates := []
                 addKwargs := [] }] }

/-- C7 witness: rendering into a caller-supplied figure returns that very instance
(identity 7 preserved) with only the caller's layout override appended — no
baseline re-application. -/
theorem C7_layout_updates_witness :
    exUserResult.id = exUserFig.id ∧
    exUserResult.layoutUpdates =
      exUserFig.layoutUpdates ++ [[("title", Val.str "t")]] := by
  have hok : plot exSettings (some exCN) exDfNoVolume none none none none none
      none (some exUserFig) [("title", Val.str "t")] 9 =
      Except.ok exUserResult := rfl
  have h := (C7_layout_updates hok).1 exUserFig rfl
  exact ⟨h.1, h.2.2⟩

/-- C8: when the volume panel is shown, the render attaches the price trace with
placement defaults `row=1, col=1` and the volume trace with `row=2, col=1`,
merged under the caller's placement bags so that every key the caller supplies
overrides the corresponding default key-by-key. -/
theorem C8_trace_placement {settings : Settings} {scn : Option ColumnNames}
    {df : DataFrame} {pt : Option PlotTypeArg} {dvo : Option Bool}
    {okw vkw oatk vatk : Option Bag} {fig : Option Figure} {lk : Bag} {fid : Nat}
    {f' : Figure} {oi hi li ci vi : Nat}
    (hoi : resolveCol df (scn.getD settings.column_names).open_ = some oi)
    (hhi : resolveCol df (scn.getD settings.column_names).high = some hi)
    (hli : resolveCol df (scn.getD settings.column_names).low = some li)
    (hci : resolveCol df (scn.getD settings.column_names).close = some ci)
    (hvi : resolveCol df (scn.getD settings.column_names).volume = some vi)
    (hdv : resolvedDisplayVolume dvo (scn.getD settings.column_names) df = true)
    (hok : plot settings scn df pt dvo okw vkw oatk vatk fig lk fid =
      Except.ok f') :
    ∃ pA vA : AddedTrace,
      f'.traces = (figAfterLayout fig true lk fid).traces ++ [pA, vA] ∧
      pA.addKwargs =
        mergeBag [("row", Val.num 1), ("col", Val.num 1)] (oatk.getD []) ∧
      vA.addKwargs =
        mergeBag [("row", Val.num 2), ("col", Val.num 1)] (vatk.getD []) ∧
      (assoc "row" (oatk.getD []) = none →
        assoc "row" pA.addKwargs = some (Val.num 1)) ∧
      (assoc "col" (oatk.getD []) = none →
        assoc "col" pA.addKwargs = some (Val.num 1)) ∧
      (assoc "row" (vatk.getD []) = none →
        assoc "row" vA.addKwargs = some (Val.num 2)) ∧
      (assoc "col" (vatk.getD []) = none →
        assoc "col" vA.addKwargs = some (Val.num 1)) ∧
      (∀ k v, assoc k (oatk.getD []) = some v →
        assoc k pA.addKwargs = some v) ∧
      (∀ k v, assoc k (vatk.getD []) = some v →
        assoc k vA.addKwargs = some v) := by
  cases hpt : resolvePlotType (pt.getD settings.plot_type) with
  | error e => rw [plot_err_plotType hoi hhi hli hci hpt] at hok; cases hok
  | ok kn =>
  obtain ⟨kind, nm⟩ := kn
  rw [plot_ok_shown hoi hhi hli hci hdv hpt hvi] at hok
  injection hok with he
  subst he
  refine ⟨_, _, rfl, rfl, rfl, ?_, ?_, ?_, ?_, ?_, ?_⟩
  · intro hnone
    rw [assoc_mergeBag_none_override _ _ _ hnone]
    rfl
  · intro hnone
    rw [assoc_mergeBag_none_override _ _ _ hnone]
    rfl
  · intro hnone
    rw [assoc_mergeBag_none_override _ _ _ hnone]
    rfl
  · intro hnone
    rw [assoc_mergeBag_none_override _ _ _ hnone]
    rfl
  · intro k v hv
    exact assoc_mergeBag_some_override _ _ _ _ hv
      (fun w hw => assoc_rowcol 1 1 k w hw v)
  · intro k v hv
    exact assoc_mergeBag_some_override _ _ _ _ hv
      (fun w hw => assoc_rowcol 2 1 k w hw v)

/-- C8 witness: with the caller overriding the price placement with `row=5`, the
merged price placement has `row=5` and keeps the default `col=1`; the untouched
volume placement keeps its default `row=2`. -/
theorem C8_trace_placement_witness :
    assoc "row" (mergeBag [("row", Val.num 1), ("col", Val.num 1)]
      [("row", Val.num 5)]) = some (Val.num 5) ∧
    assoc "col" (mergeBag [("row", Val.num 1), ("col", Val.num 1)]
      [("row", Val.num 5)]) = some (Val.num 1) ∧
    assoc "row" (mergeBag [("row", Val.num 2), ("col", Val.num 1)] []) =
      some (Val.num 2) := by
  have hok : plot exSettings (some exCN) exDf none none none none
      (some [("row", Val.num 5)]) none none [] 0 =
      Except.ok { figAfterLayout none true [] 0 with
        traces := (figAfterLayout none true [] 0).traces ++
          [{ trace := BuiltTrace.price (builtPrice exSettings exDf TraceKind.ohlc
               (NameValue.ofString "OHLC") 1 2 3 4)
             traceUpdates := []
             addKwargs := mergeBag [("row", Val.num 1), ("col", Val.num 1)]
               [("row", Val.num 5)] },
           { trace := BuiltTrace.volume (buildVolumeTrace exSchema exDf.index
               (iloc exDf 5) (iloc exDf 4) (iloc exDf 1))
             traceUpdates := []
             addKwargs := mergeBag [("row", Val.num 2), ("col", Val.num 1)] [] }] } :=
    plot_ok_shown exDf_open exDf_high exDf_low exDf_close exDf_dv exDf_pt
      exDf_volume
  obtain ⟨pA, vA, htr, hpk, hvk, -, hcolP, hrowV, -, hovP, -⟩ :=
    C8_trace_placement exDf_open exDf_high exDf_low exDf_close exDf_volume
      exDf_dv hok
  refine ⟨?_, ?_, ?_⟩
  · have h := hovP "row" (Val.num 5) rfl
    rw [hpk] at h
    exact h
  · have h := hcolP rfl
    rw [hpk] at h
    exact h
  · have h := hrowV rfl
    rw [hvk] at h
    exact h

end VectorBt
